import Mathlib

/-!
Verification of `timeline.py` (LNS device-timeline reconstruction).

This file shallowly embeds the parts of the program that the checked
claims are about:

* the Pattern Detector (`DeviceTimeline.check_for_errors` and the three
  window predicates `_normal_join_process`, `_device_not_joined`,
  `_missing_on_air`), lines 469-530 of `timeline.py`;
* the Timeline Merger's selection and merge steps
  (`_extract_from_gateway`, `_extract_from_gateway_meta`,
  `_extract_from_muxs`, `_extract_from_muxs_meta`, `cleanup_timeline`),
  lines 390-537;
* the identity-context accumulation of `_extract_from_nwks`
  (lines 417-419), together with the Python class-attribute aliasing
  that makes the accumulated lists shared between instances;
* the per-line parsers `_parse_data_string` of the gateway, joins and
  network-session ingestors (lines 52-98, 126-149, 177-242);
* the aggregator `DeviceStats.__init__` (lines 547-558).

Pandas-specific semantics that the embedding has to reproduce are
documented at the definition that models them.
-/

/-- One row of a finished Device Timeline, as the Pattern Detector sees
it: after `cleanup_timeline` every cell of the six source columns is a
string (`fillna('')` replaced missing cells by `''`).  The `Timestamp`
column is irrelevant to the detector and omitted here. -/
structure Row where
  gw0 : String
  gw1 : String
  joins : String
  nwks : String
  door : String
  muxs : String
deriving DecidableEq, Repr

instance : Inhabited Row := ⟨⟨"", "", "", "", "", ""⟩⟩

/-- The note written by `check_for_errors` for a normal join (line 472). -/
def njNote : String := "Normal Join: LNS carried out the normal join process."

/-- The note for a duplicate join request (line 473). -/
def devNote : String := "Device Error: Device tried to join again after successful join process."

/-- The note for a scheduled-but-unsent join accept (line 474). -/
def lnsNote : String := "LNS Error: Gateway scheduled JACC but did not transmit it."

/-- The gateway event label for a join request. -/
def jreqLabel : String := "JREQ"

/-- The gateway event label for a scheduled join-accept downlink. -/
def jaccSchedLabel : String := "DN: [Scheduled] JACC"

/-- The gateway event label for a transmitted downlink. -/
def onAirLabel : String := "DN: [On-Air]"

/-- The forwarding (door) event label for a forwarded join. -/
def sendingLabel : String := "SENDING Muxs..."

/-- Row lookup `timeline.loc[i]` on the event columns; out-of-range
indices are never used under the theorems' bounds. -/
def rowAt (tl : List Row) (i : Nat) : Row := tl.getD i default

/-- `(tl.iloc[k]['GW0'] == 'JREQ') or (tl.iloc[k]['GW1'] == 'JREQ')`,
the JREQ test of `_normal_join_process` (lines 500-502). -/
def rowHasJreq (r : Row) : Bool := r.gw0 == jreqLabel || r.gw1 == jreqLabel

/-- The `gw_sent_jacc` test of `_normal_join_process` (lines 504-505):
`a` shows a scheduled JACC and `b` shows On-Air on the same
gateway-front column. -/
def jaccOnAirPair (a b : Row) : Bool :=
  (a.gw0 == jaccSchedLabel && b.gw0 == onAirLabel) ||
  (a.gw1 == jaccSchedLabel && b.gw1 == onAirLabel)

/-- `_normal_join_process` (lines 492-506) on the window `w` that
`check_for_errors` slices out of the timeline.  The source reads
`tl.iloc[-4]`, `tl.iloc[-3]`, `tl.iloc[-2]`, `tl.iloc[-1]` and, when
the window has more than 4 rows, also `tl.iloc[-5]`; on a window
shorter than 4 rows `tl.iloc[-4]` raises `IndexError`, which the
embedding returns as `Except.error ()`. -/
def normal_join_process (w : List Row) : Except Unit Bool :=
  if w.length < 4 then Except.error ()
  else
    let rm4 := w.getD (w.length - 4) default
    let rm3 := w.getD (w.length - 3) default
    let rm2 := w.getD (w.length - 2) default
    let rm1 := w.getD (w.length - 1) default
    let gw_got_jreq :=
      if 4 < w.length then
        rowHasJreq rm4 || rowHasJreq (w.getD (w.length - 5) default)
      else rowHasJreq rm4
    let door_sending_muxs := rm3.door == sendingLabel
    let gw_sent_jacc := jaccOnAirPair rm2 rm1
    Except.ok (gw_got_jreq && door_sending_muxs && gw_sent_jacc)

/-- `_device_not_joined` (lines 509-518) on the two rows
`tl.iloc[0] = a`, `tl.iloc[1] = b`. -/
def device_not_joined (a b : Row) : Bool :=
  (a.gw0 == onAirLabel || a.gw1 == onAirLabel) &&
  (b.gw0 == jreqLabel || b.gw1 == jreqLabel)

/-- `_missing_on_air` (lines 521-530) on the two rows
`tl.iloc[0] = a`, `tl.iloc[1] = b`. -/
def missing_on_air (a b : Row) : Bool :=
  ((b.gw0 != onAirLabel) && (a.gw0 == jaccSchedLabel)) ||
  ((b.gw1 != onAirLabel) && (a.gw1 == jaccSchedLabel))

/-- The `Notes` column as a total assignment of note strings to row
labels; `check_for_errors` initialises it with `''` everywhere
(line 476). -/
abbrev Notes := Nat → String

/-- Pointwise update of the `Notes` assignment,
`timeline.loc[i,'Notes'] = v` for an existing row `i`. -/
def setNote (f : Notes) (i : Nat) (v : String) : Notes :=
  fun j => if j = i then v else f j

/-- `timeline.loc[i,'Notes'] = v` in general: for `i < n` it updates row
`i`; for `i = n` (one past the last row) pandas *enlarges* the frame,
creating a new row whose event cells are all `NaN` and whose `Notes`
cell is `v`.  The ghost row is modelled by the `Option String` second
component (its note, `none` while the row does not exist). -/
def locWrite (n i : Nat) (v : String) (f : Notes) (g : Option String) :
    Notes × Option String :=
  if i < n then (setNote f i v, g) else (f, some v)

/-- `timeline.loc[a:b]` on the integer range index `0..len-1`:
label-based slicing is inclusive on both ends and clips a missing end
label. -/
def listSlice (tl : List Row) (a b : Nat) : List Row :=
  (tl.drop a).take (b + 1 - a)

/-- The normal-join checks of one `check_for_errors` iteration
(lines 478-483): at `i == 3` the window is `loc[0:3]`, at `i > 3` it is
`loc[i-4:i]`; on success the note is written at `loc[i]`. -/
def njPhase (tl : List Row) (n i : Nat) (f : Notes) (g : Option String) :
    Except Unit (Notes × Option String) :=
  if i = 3 then
    match normal_join_process (listSlice tl 0 3) with
    | Except.error e => Except.error e
    | Except.ok b => Except.ok (if b then locWrite n i njNote f g else (f, g))
  else if 3 < i then
    match normal_join_process (listSlice tl (i - 4) i) with
    | Except.error e => Except.error e
    | Except.ok b => Except.ok (if b then locWrite n i njNote f g else (f, g))
  else Except.ok (f, g)

/-- The device-error check of one iteration (lines 484-486): it runs
when `loc[i-1,'Notes']` equals the normal-join note and slices
`loc[i-1:i]`.  When `i = n` that slice contains row `n-1` and, if the
ghost row exists, the ghost row, whose gateway cells are `NaN`, so the
JREQ test of `_device_not_joined` is `False`; without the ghost row the
slice has a single row and `tl.iloc[1]` raises `IndexError`. -/
def devPhase (tl : List Row) (n i : Nat) (f : Notes) (g : Option String) :
    Except Unit (Notes × Option String) :=
  if f (i - 1) == njNote then
    if i < n then
      Except.ok
        (if device_not_joined (rowAt tl (i - 1)) (rowAt tl i) then
          locWrite n i devNote f g
         else (f, g))
    else
      match g with
      | some gv => Except.ok (f, some gv)
      | none => Except.error ()
  else Except.ok (f, g)

/-- The missing-on-air check of one iteration (lines 487-489): it runs
when `i < timeline.shape[0]`, where the shape is re-read and therefore
counts the ghost row when the normal-join write of this same iteration
created it.  For `i = n` with the ghost row present the slice
`loc[i-1:i]` is row `n-1` followed by the ghost row; the ghost row's
`NaN` gateway cells make `!= 'DN: [On-Air]'` hold, so `_missing_on_air`
reduces to row `n-1` showing a scheduled JACC on either column. -/
def missPhase (tl : List Row) (n i : Nat) (f : Notes) (g : Option String) :
    Notes × Option String :=
  let shape := n + (if g.isSome then 1 else 0)
  if i < shape then
    if i < n then
      if missing_on_air (rowAt tl (i - 1)) (rowAt tl i) then
        locWrite n i lnsNote f g
      else (f, g)
    else
      if ((rowAt tl (i - 1)).gw0 == jaccSchedLabel) ||
          ((rowAt tl (i - 1)).gw1 == jaccSchedLabel) then
        locWrite n i lnsNote f g
      else (f, g)
  else (f, g)

/-- One iteration of the `check_for_errors` loop body at index `i`
(lines 477-489), in source order: normal-join window check, then
device-error check, then missing-on-air check. -/
def stepE (tl : List Row) (n i : Nat) (f : Notes) (g : Option String) :
    Except Unit (Notes × Option String) :=
  match njPhase tl n i f g with
  | Except.error e => Except.error e
  | Except.ok (f1, g1) =>
    match devPhase tl n i f1 g1 with
    | Except.error e => Except.error e
    | Except.ok (f2, g2) => Except.ok (missPhase tl n i f2 g2)

/-- `for i in range(1, shape+1)` with `fuel` remaining iterations,
current index `i`: `range`'s bound is evaluated once, before the loop,
so `fuel` is fixed at `n` even though the frame can grow. -/
def loopE (tl : List Row) (n : Nat) :
    Nat → Nat → Notes → Option String → Except Unit (Notes × Option String)
  | 0, _, f, g => Except.ok (f, g)
  | Nat.succ k, i, f, g =>
    match stepE tl n i f g with
    | Except.error e => Except.error e
    | Except.ok (f2, g2) => loopE tl n k (i + 1) f2 g2

/-- `DeviceTimeline.check_for_errors` (lines 469-489) on a finished
timeline `tl` of `n` rows.  The result is the final `Notes` column of
rows `0..n-1` together with the note of the ghost row at label `n` when
the loop created one (`none` otherwise); `Except.error ()` models the
`IndexError` the Python code raises out of `iloc`. -/
def check_for_errors (tl : List Row) : Except Unit (List String × Option String) :=
  let n := tl.length
  match loopE tl n n 1 (fun _ => "") none with
  | Except.error e => Except.error e
  | Except.ok (f, g) => Except.ok ((List.range n).map f, g)

/-- The 4-row normal-join signature for the window `rows i-3 .. i`
(the `i == 3` window and the final `i == n` window). -/
def sig4at (tl : List Row) (i : Nat) : Bool :=
  rowHasJreq (rowAt tl (i - 3)) &&
  ((rowAt tl (i - 2)).door == sendingLabel) &&
  jaccOnAirPair (rowAt tl (i - 1)) (rowAt tl i)

/-- The 5-row normal-join signature for the window `rows i-4 .. i`
(the `i > 3` windows): the JREQ may sit one row further back. -/
def sig5at (tl : List Row) (i : Nat) : Bool :=
  (rowHasJreq (rowAt tl (i - 3)) || rowHasJreq (rowAt tl (i - 4))) &&
  ((rowAt tl (i - 2)).door == sendingLabel) &&
  jaccOnAirPair (rowAt tl (i - 1)) (rowAt tl i)

/-- Whether the normal-join window check of iteration `i` fires, for an
iteration that addresses an existing row (`i < n`). -/
def njFires (tl : List Row) (i : Nat) : Bool :=
  if i = 3 then sig4at tl 3 else if 3 < i then sig5at tl i else false

/-- The final note of row `i` (`1 ≤ i ≤ n-1`), given the final note
`prev` of row `i-1` and the previous content `cur` of the cell: the
three checks of one iteration write in source order, so the last
matching check wins. -/
def stepNote (tl : List Row) (prev cur : String) (i : Nat) : String :=
  if missing_on_air (rowAt tl (i - 1)) (rowAt tl i) then lnsNote
  else if prev == njNote && device_not_joined (rowAt tl (i - 1)) (rowAt tl i) then devNote
  else if njFires tl i then njNote
  else cur

/-- Direct (loop-free) description of the final `Notes` column on rows
`0..n-1`: row `0` is never written (the loop starts at `i = 1`), and
row `i` receives exactly the result of iteration `i`. -/
def noteOf (tl : List Row) : Nat → String
  | 0 => ""
  | Nat.succ j => stepNote tl (noteOf tl j) "" (j + 1)

/-- The Normal Join window signature as the specification words it for a
row `i` of the finished timeline: a 4-row lookback window ending at `i`
(5 rows when available, the JREQ allowed one row further back) whose
earliest row shows JREQ on either gateway-front column, whose
next-to-earliest remaining row shows the forwarding source's label,
and whose final two rows show Scheduled JACC immediately followed by
On-Air on one and the same gateway-front column. -/
def specNormalJoinWindow (tl : List Row) (i : Nat) : Prop :=
  3 ≤ i ∧ i < tl.length ∧
  (rowHasJreq (rowAt tl (i - 3)) = true ∨ (4 ≤ i ∧ rowHasJreq (rowAt tl (i - 4)) = true)) ∧
  (rowAt tl (i - 2)).door = sendingLabel ∧
  jaccOnAirPair (rowAt tl (i - 1)) (rowAt tl i) = true

/-- The LNS Error condition exactly as the claim states it: row `i`
itself shows Scheduled JACC on a gateway-front column and the
immediately following row does not show On-Air on that same column
(a Scheduled JACC on the last row never qualifies). -/
abbrev specLnsOnJaccRow (tl : List Row) (i : Nat) : Prop :=
  ((rowAt tl i).gw0 = jaccSchedLabel ∧ i + 1 < tl.length ∧
    ¬ (rowAt tl (i + 1)).gw0 = onAirLabel) ∨
  ((rowAt tl i).gw1 = jaccSchedLabel ∧ i + 1 < tl.length ∧
    ¬ (rowAt tl (i + 1)).gw1 = onAirLabel)

/-- The LNS Error condition as the code implements it: the row
*preceding* `i` shows Scheduled JACC on a gateway-front column and row
`i` does not show On-Air on that same column. -/
def lnsAfterJacc (tl : List Row) (i : Nat) : Prop :=
  1 ≤ i ∧
  ((¬ (rowAt tl i).gw0 = onAirLabel ∧ (rowAt tl (i - 1)).gw0 = jaccSchedLabel) ∨
   (¬ (rowAt tl i).gw1 = onAirLabel ∧ (rowAt tl (i - 1)).gw1 = jaccSchedLabel))

/-- A row whose only populated event cell is `GW0`. -/
def rowGw0 (s : String) : Row := ⟨s, "", "", "", "", ""⟩

/-- A row whose only populated event cell is `GW1`. -/
def rowGw1 (s : String) : Row := ⟨"", s, "", "", "", ""⟩

/-- A forwarding-source row. -/
def rowDoorSending : Row := ⟨"", "", "", "", sendingLabel, ""⟩

/-- A row with no populated event cell. -/
def rowNone : Row := ⟨"", "", "", "", "", ""⟩

/-- A 4-row timeline showing a complete normal-join sequence on GW0. -/
def exJoin4 : List Row := [rowGw0 jreqLabel, rowDoorSending, rowGw0 jaccSchedLabel, rowGw0 onAirLabel]

/-- The notes `check_for_errors` writes on `exJoin4`. -/
def exJoin4Notes : List String := ["", "", "", njNote]

/-- `exJoin4` followed by a renewed join request. -/
def exDevice : List Row :=
  [rowGw0 jreqLabel, rowDoorSending, rowGw0 jaccSchedLabel, rowGw0 onAirLabel, rowGw0 jreqLabel]

/-- The notes `check_for_errors` writes on `exDevice`. -/
def exDeviceNotes : List String := ["", "", "", njNote, devNote]

/-- A 2-row timeline: a scheduled JACC on GW0 never followed by On-Air. -/
def exJacc2 : List Row := [rowGw0 jaccSchedLabel, rowNone]

/-- The notes `check_for_errors` writes on `exJacc2`. -/
def exJacc2Notes : List String := ["", lnsNote]

/-- A timeline of exactly three (empty) rows. -/
def exThree : List Row := [rowNone, rowNone, rowNone]

/-- One row of the in-memory Device Timeline as the Timeline Merger
builds it: `pd.concat` appends, per selected source row, its timestamp
and its event label under the one source column being merged
(all other columns of that appended row stay empty). -/
structure TRow where
  ts : Int
  col : String
  label : String
deriving DecidableEq, Repr

/-- Insert a row after all rows with a timestamp less than or equal to
its own. -/
def insertRow (r : TRow) : List TRow → List TRow
  | [] => [r]
  | x :: xs => if x.ts ≤ r.ts then x :: insertRow r xs else r :: x :: xs

/-- Insertion sort by timestamp. -/
def sortByTs : List TRow → List TRow
  | [] => []
  | x :: xs => insertRow x (sortByTs xs)

/-- `cleanup_timeline` (lines 532-537): `fillna('')` (a no-op in this
row model, which records only the populated column),
`sort_values(by='Timestamp')` and `reset_index(drop=True)` (implicit in
the list representation).  `sort_values` is called with its default
`kind='quicksort'`, whose order among equal timestamps is
implementation-defined; the model fixes one concrete tie order, and no
theorem below depends on it. -/
def cleanup_timeline (t : List TRow) : List TRow := sortByTs t

/-- One parsed gateway-log row (columns of `GatewayLogIngestor.log`). -/
structure GwRow where
  ts : Int
  event : String
  devEui : Option String
  devAddr : Option Int
  pdu : Option String
  seqno : Option Int
deriving DecidableEq, Repr

/-- `series.isin(values)` on an optional string cell: a missing cell
(`NaN`) is never `isin`. -/
def optStrIn (v : Option String) (l : List String) : Bool :=
  match v with
  | none => false
  | some s => l.contains s

/-- `series.isin(values)` on an optional numeric cell. -/
def optIntIn (v : Option Int) (l : List Int) : Bool :=
  match v with
  | none => false
  | some a => l.contains a

/-- The row selection of `_extract_from_gateway` (line 392):
`log['DevEui'] == deveui` (a `NaN` cell never equals anything). -/
def gwSelectDirect (deveui : String) (log : List GwRow) : List GwRow :=
  log.filter (fun r => r.devEui == some deveui)

/-- `_extract_from_gateway` (lines 390-396): select by device EUI,
project to `(Timestamp, GWn)`, append, re-sort and re-index. -/
def extract_from_gateway (deveui gwcol : String) (log : List GwRow) (t : List TRow) :
    List TRow :=
  cleanup_timeline (t ++ (gwSelectDirect deveui log).map (fun r => ⟨r.ts, gwcol, r.event⟩))

/-- The row selection of `_extract_from_gateway_meta` (lines 451-453):
`DevAddr.isin(devaddrs) | pdu.isin(pdus)`; the third candidate
(`seqno.isin(diids)`) is commented out in the source. -/
def gwSelectMeta (devaddrs : List Int) (pdus : List String) (log : List GwRow) :
    List GwRow :=
  log.filter (fun r => optIntIn r.devAddr devaddrs || optStrIn r.pdu pdus)

/-- `_extract_from_gateway_meta` (lines 449-457). -/
def extract_from_gateway_meta (devaddrs : List Int) (pdus : List String) (gwcol : String)
    (log : List GwRow) (t : List TRow) : List TRow :=
  cleanup_timeline (t ++ (gwSelectMeta devaddrs pdus log).map (fun r => ⟨r.ts, gwcol, r.event⟩))

/-- One parsed multiplexer-log row (columns of `MuxsLogIngestor.log`). -/
structure MuxRow where
  ts : Int
  event : String
  devAddr : Option Int
deriving DecidableEq, Repr

/-- The row selection of `_extract_from_muxs` (lines 435-446).  When the
device's session-address list is empty nothing is selected (the body is
skipped); otherwise the mask starts as `log['DevAddr'] > -1e15` — true
for every row whose `DevAddr` parsed to a number, false for `NaN` —
and each `log['DevAddr'] == devaddr` check is or-ed into it. -/
def muxSelectRound1 (devaddrs : List Int) (log : List MuxRow) : List MuxRow :=
  if devaddrs.isEmpty then []
  else
    log.filter (fun r =>
      match r.devAddr with
      | none => false
      | some a => decide ((-1000000000000000 : Int) < a) || devaddrs.any (fun d => a == d))

/-- `_extract_from_muxs_meta` (lines 460-466): select by
`DevAddr.isin(devaddrs)`, project to `(Timestamp, MUXS)`, append,
re-sort and re-index. -/
def extract_from_muxs_meta (devaddrs : List Int) (log : List MuxRow) (t : List TRow) :
    List TRow :=
  cleanup_timeline
    (t ++ (log.filter (fun r => optIntIn r.devAddr devaddrs)).map
      (fun r => ⟨r.ts, "MUXS", r.event⟩))

/-- A gateway row that matches the target device both directly (by
`DevEui`) and via metadata (its `DevAddr` is in the resolved set). -/
def cexGwLog : List GwRow :=
  [⟨0, "UPDF", some "AA-AA-AA-AA-AA-AA-AA-01", some 7, none, none⟩]

/-- The projected timeline row of the one row of `cexGwLog`. -/
def cexTRow : TRow := ⟨0, "GW0", "UPDF"⟩

/-- A multiplexer log with one row whose session address is `7`. -/
def cexMuxLog : List MuxRow := [⟨0, "Unknown DevAddr", some 7⟩]

/-- The contents of the lists `DeviceTimeline.devaddrs`,
`DeviceTimeline.diids` and `DeviceTimeline.pdus`.  In the source these
are *class-scope* mutable defaults (lines 341-343); `self.devaddrs +=
...` looks the name up on the class, mutates that single shared list
object in place and aliases it from the instance, so the contents
thread through every `DeviceTimeline` instance of the process.  This
state value models the shared object's contents. -/
structure ClassState where
  devaddrs : List Int
  diids : List Int
  pdus : List String
deriving DecidableEq, Repr

/-- The empty shared state at class-definition time. -/
def initClassState : ClassState := ⟨[], [], []⟩

/-- One parsed network-session row (columns of `NwksLogIngestor.log`). -/
structure NwksRow where
  ts : Int
  devEui : String
  event : String
  devAddr : Option Int
  newDiid : Option Int
  oldDiid : Option Int
deriving DecidableEq, Repr

/-- The identity-context accumulation of `_extract_from_nwks`
(lines 417-419): filter the rows of the network-session table whose
`DevEui` equals the device's, then append their non-null `DevAddr`
values to `devaddrs` and their non-null `NewDiid` and `OldDiid` values
to `diids` — on the shared class-level lists. -/
def extract_from_nwks_ids (deveui : String) (log : List NwksRow) (st : ClassState) :
    ClassState :=
  let relevant := log.filter (fun r => r.devEui == deveui)
  { st with
    devaddrs := st.devaddrs ++ relevant.filterMap (fun r => r.devAddr),
    diids := st.diids ++ relevant.filterMap (fun r => r.newDiid) ++
      relevant.filterMap (fun r => r.oldDiid) }

/-- A network-session log holding one row for device `AA-...-01` that
carries session address `1001`. -/
def cexNwksLog : List NwksRow :=
  [⟨0, "AA-AA-AA-AA-AA-AA-AA-01", "Messages to unknown device (dropped)", some 1001,
    none, none⟩]

/-- The observable content of one joins-log line, as the joins parser
(lines 126-149) reads it: the result of
`re.search('([0-9A-F]{2}[:-]){7}[0-9A-F]{2}', data)` (none when the
line holds no device-identifier pattern), the three recognised
substring markers, and `data.split(' - ')`. -/
structure JoinsLine where
  euiSearch : Option String
  hasUnprovisioned : Bool
  splitDash : List String
  hasVerifyFailed : Bool
  hasNotAccepted : Bool
deriving DecidableEq, Repr

/-- `JoinsLogIngestor._parse_data_string` (lines 126-149).  The very
first statement calls `.group()` on the regex result, which raises
`AttributeError` when the search found nothing; `data.split(' - ')[1]`
raises `IndexError` when no separator is present.  Both raises are
`Except.error ()`.  The result is `(Event, DevEui)`. -/
def joins_parse_data_string (l : JoinsLine) : Except Unit (String × String) :=
  match l.euiSearch with
  | none => Except.error ()
  | some deveui =>
    if l.hasUnprovisioned then
      match l.splitDash[1]? with
      | none => Except.error ()
      | some ev => Except.ok (ev, deveui)
    else if l.hasVerifyFailed then Except.ok ("Verify of join request failed", deveui)
    else if l.hasNotAccepted then Except.ok ("Not accepted (in time)", deveui)
    else Except.ok ("UNKNOWN", deveui)

/-- The observable content of one network-session log line, as the nwks
parser (lines 177-242) reads it: the unconditional device-identifier
search, the six recognised substring markers, and the secondary regex
searches of the branches that use them. -/
structure NwksLine where
  euiSearch : Option String
  hasOverwriting : Bool
  diidSearch : Option Int
  quotedDiidSearch : Option Int
  hasJaccOverwrites : Bool
  hasSuppressing : Bool
  hasAdrBlocked : Bool
  hasSpurious : Bool
  hasMessagesUnknown : Bool
  devAddrSearch : Option Int
deriving DecidableEq, Repr

/-- `NwksLogIngestor._parse_data_string` (lines 177-242).  As in the
joins parser, `.group()` on a failed search raises; the result is
`(Event, DevEui, DevAddr, NewDiid, OldDiid)`. -/
def nwks_parse_data_string (l : NwksLine) :
    Except Unit (String × String × Option Int × Option Int × Option Int) :=
  match l.euiSearch with
  | none => Except.error ()
  | some deveui =>
    if l.hasOverwriting then
      match l.diidSearch, l.quotedDiidSearch with
      | some nd, some od =>
        Except.ok ("Overwriting dninfo (lost dntxed/abandoned dn msg)", deveui, none,
          some nd, some od)
      | _, _ => Except.error ()
    else if l.hasJaccOverwrites then
      Except.ok ("jacc overwrites pending session", deveui, none, none, none)
    else if l.hasSuppressing then
      Except.ok ("Suppressing sending of empty frame while suppressing FOPtsDn", deveui,
        none, none, none)
    else if l.hasAdrBlocked then
      Except.ok ("ADR blocked (temporarily) by pending DN option", deveui, none, none, none)
    else if l.hasSpurious then
      Except.ok ("Spurious LinkADRAns", deveui, none, none, none)
    else if l.hasMessagesUnknown then
      match l.devAddrSearch with
      | some da =>
        Except.ok ("Messages to unknown device (dropped)", deveui, some da, none, none)
      | none => Except.error ()
    else Except.ok ("UNKNOWN", deveui, none, none, none)

/-- One cell of the `pd.Series` a gateway parse returns. -/
inductive Cell where
  | str (s : String)
  | num (n : Int)
  | null
deriving DecidableEq, Repr

/-- The fields of the JSON object after `'UP: '`. -/
structure GwUpJson where
  msgtype : Option String
  fcnt : Option Int
  devEui : Option String
  devAddr : Option Int
  pdu : Option String
deriving DecidableEq, Repr

/-- The fields of the JSON object after `'DN: [On-Air] '`. -/
structure GwOnAirJson where
  devEui : Option String
  seqno : Option Int
deriving DecidableEq, Repr

/-- The observable content of one gateway-log line: which of the three
markers it contains, the parsed JSON payload when `json.loads`
succeeded (`none` models malformed JSON, which raises), and the result
of the 14-hex-digit search of the `'DN: [Scheduled] '` branch. -/
structure GatewayLine where
  hasUP : Bool
  upJson : Option GwUpJson
  hasDnOnAir : Bool
  onAirJson : Option GwOnAirJson
  hasDnScheduled : Bool
  hexSearch : Option String
deriving DecidableEq, Repr

/-- Helper: a string cell that is `None` in the source stays missing. -/
def cellOfStr (v : Option String) : Cell :=
  match v with
  | none => Cell.null
  | some s => Cell.str s

/-- Helper: a numeric cell that is `None` in the source stays missing. -/
def cellOfInt (v : Option Int) : Cell :=
  match v with
  | none => Cell.null
  | some n => Cell.num n

/-- `GatewayLogIngestor._parse_data_string` (lines 52-98).  The `UP`
branch uppercases `msgtype` when it is truthy and returns six cells;
the On-Air branch returns six cells; the Scheduled branch classifies
the pdu by its first two hex digits and returns six cells; the
fall-through returns the UNKNOWN series — which has only **five**
elements in the source (line 92-98).  `json.loads` on malformed input
and `.group()` on a failed hex search raise. -/
def gateway_parse_data_string (l : GatewayLine) : Except Unit (List Cell) :=
  if l.hasUP then
    match l.upJson with
    | none => Except.error ()
    | some j =>
      Except.ok [cellOfStr (j.msgtype.map String.toUpper), cellOfInt j.fcnt,
        cellOfStr j.devEui, cellOfInt j.devAddr, cellOfStr j.pdu, Cell.null]
  else if l.hasDnOnAir then
    match l.onAirJson with
    | none => Except.error ()
    | some j =>
      Except.ok [Cell.str "DN: [On-Air]", Cell.null, cellOfStr j.devEui, Cell.null,
        Cell.null, cellOfInt j.seqno]
  else if l.hasDnScheduled then
    match l.hexSearch with
    | none => Except.error ()
    | some pdu =>
      Except.ok [Cell.str (if pdu.take 2 = "20" then "DN: [Scheduled] JACC"
          else "DN: [Scheduled] MAC"), Cell.null, Cell.null, Cell.null, Cell.str pdu,
        Cell.null]
  else Except.ok [Cell.str "UNKNOWN", Cell.null, Cell.null, Cell.null, Cell.null]

/-- One device as `DeviceStats` reads it: its EUI and the `Notes`
column of its finished timeline. -/
structure DeviceT where
  deveui : String
  notes : List String
deriving DecidableEq, Repr

/-- The three annotation labels counted by the Aggregator (line 549). -/
def statNames : List String := ["Normal Join", "Device Error", "LNS Error"]

/-- `series.str.contains(pat)` for the plain-text patterns of
`statNames`: substring containment. -/
def strContains (s pat : String) : Bool := (s.splitOn pat).length != 1

/-- The in-memory summary `DeviceStats.__init__` builds (lines 549-555):
one row per device, one count per annotation label — the number of
timeline rows whose `Notes` contains the label. -/
def summary_rows (devices : List DeviceT) : List (String × List Nat) :=
  devices.map (fun d =>
    (d.deveui, statNames.map (fun st => (d.notes.filter (fun s => strContains s st)).length)))

/-- `DeviceStats.__init__` (lines 547-558): after filling the summary it
unconditionally evaluates `devices[0].output_dir` for the output
filename (line 557), which raises `IndexError` on an empty batch; the
spreadsheet write itself is out of scope. -/
def device_stats (devices : List DeviceT) : Except Unit (List (String × List Nat)) :=
  let stats := summary_rows devices
  match devices.head? with
  | none => Except.error ()
  | some _ => Except.ok stats

/-- A joins-log line such as `hello world`: no device-identifier
pattern, no recognised marker. -/
def cexJoinsLine : JoinsLine := ⟨none, false, ["hello world"], false, false⟩

/-- A network-session line with no device-identifier pattern and no
recognised marker. -/
def cexNwksLine : NwksLine := ⟨none, false, none, none, false, false, false, false, false, none⟩

/-- A gateway line containing `'UP: '` followed by malformed JSON. -/
def cexGatewayLine : GatewayLine := ⟨true, none, false, none, false, none⟩

/-- A gateway line containing none of the three recognised markers. -/
def plainGatewayLine : GatewayLine := ⟨false, none, false, none, false, none⟩

theorem setNote_same (f : Notes) (i : Nat) (v : String) : setNote f i v i = v := by
  simp [setNote]

theorem setNote_other (f : Notes) (i : Nat) (v : String) (j : Nat) (h : j ≠ i) :
    setNote f i v j = f j := by
  simp [setNote, h]

theorem setNote_setNote (f : Notes) (i : Nat) (a b : String) :
    setNote (setNote f i a) i b = setNote f i b := by
  funext j
  by_cases h : j = i <;> simp [setNote, h]

theorem setNote_self (f : Notes) (i : Nat) : setNote f i (f i) = f := by
  funext j
  by_cases h : j = i <;> simp [setNote, h]

theorem listSlice_getD (tl : List Row) (a b k : Nat) (h1 : k < b + 1 - a)
    (_h2 : a + k < tl.length) :
    (listSlice tl a b).getD k default = rowAt tl (a + k) := by
  unfold listSlice rowAt
  rw [List.getD_eq_getElem?_getD, List.getD_eq_getElem?_getD,
    List.getElem?_take_of_lt h1, List.getElem?_drop]

theorem listSlice_length (tl : List Row) (a b : Nat) :
    (listSlice tl a b).length = min (b + 1 - a) (tl.length - a) := by
  simp [listSlice]

theorem listSlice_elem (tl : List Row) (a b k : Nat) (h1 : k < b + 1 - a)
    (h2 : a + k < tl.length) :
    (listSlice tl a b)[k]?.getD default = rowAt tl (a + k) := by
  have e := listSlice_getD tl a b k h1 h2
  rwa [List.getD_eq_getElem?_getD] at e

theorem njp_slice4 (tl : List Row) (h : 4 ≤ tl.length) :
    normal_join_process (listSlice tl 0 3) = Except.ok (sig4at tl 3) := by
  have hlen : (listSlice tl 0 3).length = 4 := by
    rw [listSlice_length]; omega
  have g0 : (listSlice tl 0 3)[0]?.getD default = rowAt tl 0 := by
    simpa using listSlice_elem tl 0 3 0 (by omega) (by omega)
  have g1 : (listSlice tl 0 3)[1]?.getD default = rowAt tl 1 := by
    simpa using listSlice_elem tl 0 3 1 (by omega) (by omega)
  have g2 : (listSlice tl 0 3)[2]?.getD default = rowAt tl 2 := by
    simpa using listSlice_elem tl 0 3 2 (by omega) (by omega)
  have g3 : (listSlice tl 0 3)[3]?.getD default = rowAt tl 3 := by
    simpa using listSlice_elem tl 0 3 3 (by omega) (by omega)
  unfold normal_join_process sig4at
  rw [hlen]
  norm_num [g0, g1, g2, g3]

theorem njp_slice5 (tl : List Row) (i : Nat) (h4 : 4 ≤ i) (h : i < tl.length) :
    normal_join_process (listSlice tl (i - 4) i) = Except.ok (sig5at tl i) := by
  have hlen : (listSlice tl (i - 4) i).length = 5 := by
    rw [listSlice_length]; omega
  have g0 : (listSlice tl (i - 4) i)[0]?.getD default = rowAt tl (i - 4) := by
    have e := listSlice_elem tl (i - 4) i 0 (by omega) (by omega)
    rw [e]; congr 1
  have g1 : (listSlice tl (i - 4) i)[1]?.getD default = rowAt tl (i - 3) := by
    have e := listSlice_elem tl (i - 4) i 1 (by omega) (by omega)
    rw [e]; congr 1; omega
  have g2 : (listSlice tl (i - 4) i)[2]?.getD default = rowAt tl (i - 2) := by
    have e := listSlice_elem tl (i - 4) i 2 (by omega) (by omega)
    rw [e]; congr 1; omega
  have g3 : (listSlice tl (i - 4) i)[3]?.getD default = rowAt tl (i - 1) := by
    have e := listSlice_elem tl (i - 4) i 3 (by omega) (by omega)
    rw [e]; congr 1; omega
  have g4 : (listSlice tl (i - 4) i)[4]?.getD default = rowAt tl i := by
    have e := listSlice_elem tl (i - 4) i 4 (by omega) (by omega)
    rw [e]; congr 1; omega
  unfold normal_join_process sig5at
  rw [hlen]
  norm_num [g0, g1, g2, g3, g4]

theorem njPhase_lt (tl : List Row) (f : Notes) (i : Nat) (h2 : i < tl.length) :
    njPhase tl tl.length i f none =
      Except.ok (if njFires tl i then (setNote f i njNote, none) else (f, none)) := by
  unfold njPhase njFires
  by_cases h3 : i = 3
  · subst h3
    rw [njp_slice4 tl (by omega)]
    simp [locWrite, h2]
  · by_cases h4 : 3 < i
    · rw [if_neg h3, if_pos h4, njp_slice5 tl i (by omega) h2, if_neg h3, if_pos h4]
      simp [locWrite, h2]
    · simp [h3, h4]

theorem step_lt (tl : List Row) (f : Notes) (i : Nat) (h1 : 1 ≤ i) (h2 : i < tl.length) :
    stepE tl tl.length i f none =
      Except.ok (setNote f i (stepNote tl (f (i - 1)) (f i) i) , none) := by
  have hne : i - 1 ≠ i := by omega
  unfold stepE
  rw [njPhase_lt tl f i h2]
  by_cases hF : njFires tl i <;>
    by_cases hP : (f (i - 1) == njNote) = true <;>
      by_cases hD : device_not_joined (rowAt tl (i - 1)) (rowAt tl i) = true <;>
        by_cases hM : missing_on_air (rowAt tl (i - 1)) (rowAt tl i) = true <;>
          simp [hF, hP, hD, hM, devPhase, missPhase, locWrite, stepNote, h2,
            setNote_other f i njNote (i - 1) hne, setNote_setNote, setNote_self]

theorem loopE_add (tl : List Row) (n a b i : Nat) (f : Notes) (g : Option String) :
    loopE tl n (a + b) i f g =
      (match loopE tl n a i f g with
       | Except.error e => Except.error e
       | Except.ok (f2, g2) => loopE tl n b (i + a) f2 g2) := by
  induction a generalizing i f g with
  | zero => simp [loopE]
  | succ a ih =>
    have hsucc : a + 1 + b = (a + b) + 1 := by omega
    rw [hsucc]
    show loopE tl n ((a + b) + 1) i f g = _
    rw [show (a + b) + 1 = Nat.succ (a + b) from rfl,
      show a + 1 = Nat.succ a from rfl]
    simp only [loopE]
    cases hstep : stepE tl n i f g with
    | error e => rfl
    | ok st =>
      obtain ⟨f2, g2⟩ := st
      dsimp only
      rw [ih (i + 1) f2 g2]
      cases loopE tl n a (i + 1) f2 g2 with
      | error e => rfl
      | ok st2 =>
        obtain ⟨f3, g3⟩ := st2
        dsimp only
        have harr : i + 1 + a = i + Nat.succ a := by omega
        rw [harr]

theorem loop_prefix (tl : List Row) (k : Nat) (hk : k + 1 ≤ tl.length) :
    loopE tl tl.length k 1 (fun _ => "") none =
      Except.ok (fun j => if j ≤ k then noteOf tl j else "", none) := by
  induction k with
  | zero =>
    have hfun : (fun j => if j ≤ 0 then noteOf tl j else "") = (fun _ : Nat => "") := by
      funext j
      cases j with
      | zero => simp [noteOf]
      | succ m => simp
    rw [hfun]
    simp [loopE]
  | succ k ih =>
    have hk1 : k + 1 ≤ tl.length := by omega
    rw [loopE_add tl tl.length k 1 1 (fun _ => "") none, ih hk1]
    show loopE tl tl.length 1 (1 + k) _ none = _
    have h1k : 1 + k = k + 1 := by omega
    rw [h1k]
    rw [show (1 : Nat) = Nat.succ 0 from rfl]
    simp only [loopE]
    rw [step_lt tl (fun j => if j ≤ k then noteOf tl j else "") (k + 1) (by omega) (by omega)]
    simp only [loopE]
    have hprev : (if k + 1 - 1 ≤ k then noteOf tl (k + 1 - 1) else "") = noteOf tl k := by
      simp
    have hcur : (if k + 1 ≤ k then noteOf tl (k + 1) else "") = "" := by
      simp
    rw [hprev, hcur]
    have hfun : setNote (fun j => if j ≤ k then noteOf tl j else "") (k + 1)
        (stepNote tl (noteOf tl k) "" (k + 1)) =
        (fun j => if j ≤ k + 1 then noteOf tl j else "") := by
      funext j
      by_cases hj : j = k + 1
      · subst hj
        simp [setNote, noteOf]
      · rcases Nat.lt_or_ge j (k + 1) with hlt | hge
        · have hjk : j ≤ k := by omega
          have hjk1 : j ≤ k + 1 := by omega
          simp [setNote, hj, hjk, hjk1]
        · have hj1 : ¬ j ≤ k := by omega
          have hj2 : ¬ j ≤ k + 1 := by omega
          simp [setNote, hj, hj1, hj2]
    rw [hfun]

theorem njPhase_at_n (tl : List Row) (n : Nat) (f : Notes) (g : Option String) :
    njPhase tl n n f g = Except.error () ∨
      ∃ gg, njPhase tl n n f g = Except.ok (f, gg) := by
  have hlt : ¬ n < n := by omega
  unfold njPhase
  by_cases h3 : n = 3
  · rw [if_pos h3]
    cases hr : normal_join_process (listSlice tl 0 3) with
    | error e => cases e; left; rfl
    | ok b =>
      right
      cases b
      · exact ⟨g, by simp⟩
      · exact ⟨some njNote, by simp [locWrite, hlt]⟩
  · by_cases h4 : 3 < n
    · rw [if_neg h3, if_pos h4]
      cases hr : normal_join_process (listSlice tl (n - 4) n) with
      | error e => cases e; left; rfl
      | ok b =>
        right
        cases b
        · exact ⟨g, by simp⟩
        · exact ⟨some njNote, by simp [locWrite, hlt]⟩
    · rw [if_neg h3, if_neg h4]
      right
      exact ⟨g, rfl⟩

theorem devPhase_at_n (tl : List Row) (n : Nat) (f : Notes) (g : Option String) :
    devPhase tl n n f g = Except.error () ∨
      ∃ gg, devPhase tl n n f g = Except.ok (f, gg) := by
  have hlt : ¬ n < n := by omega
  unfold devPhase
  by_cases hP : (f (n - 1) == njNote) = true
  · rw [if_pos hP, if_neg hlt]
    cases g with
    | some gv => right; exact ⟨some gv, rfl⟩
    | none => left; rfl
  · rw [if_neg hP]
    right
    exact ⟨g, rfl⟩

theorem missPhase_at_n_fst (tl : List Row) (n : Nat) (f : Notes) (g : Option String) :
    (missPhase tl n n f g).1 = f := by
  have hlt : ¬ n < n := by omega
  simp only [missPhase, locWrite, hlt, if_false]
  split_ifs <;> rfl

theorem stepE_at_n (tl : List Row) (n : Nat) (f : Notes) (g : Option String) :
    stepE tl n n f g = Except.error () ∨
      ∃ gg, stepE tl n n f g = Except.ok (f, gg) := by
  unfold stepE
  rcases njPhase_at_n tl n f g with h | ⟨g1, h⟩ <;> rw [h]
  · left; rfl
  · dsimp only
    rcases devPhase_at_n tl n f g1 with h2 | ⟨g2, h2⟩ <;> rw [h2]
    · left; rfl
    · dsimp only
      cases hm : missPhase tl n n f g2 with
      | mk m1 m2 =>
        have hm1 : m1 = f := by
          have := missPhase_at_n_fst tl n f g2
          rw [hm] at this
          exact this
        subst hm1
        right
        exact ⟨m2, rfl⟩

theorem range_map_getD (f : Notes) (n i : Nat) (hi : i < n) :
    ((List.range n).map f).getD i "" = f i := by
  rw [List.getD_eq_getElem?_getD, List.getElem?_map, List.getElem?_range hi]
  rfl

theorem check_ok_notes (tl : List Row) (notes : List String) (g : Option String)
    (hok : check_for_errors tl = Except.ok (notes, g)) (i : Nat) (hi : i < tl.length) :
    notes.getD i "" = noteOf tl i := by
  unfold check_for_errors at hok
  dsimp only at hok
  have hn1 : 1 ≤ tl.length := by omega
  have hsplit := loopE_add tl tl.length (tl.length - 1) 1 1 (fun _ => "") none
  rw [show tl.length - 1 + 1 = tl.length from by omega] at hsplit
  rw [hsplit, loop_prefix tl (tl.length - 1) (by omega)] at hok
  rw [show (1 : Nat) + (tl.length - 1) = tl.length from by omega] at hok
  dsimp only at hok
  rcases stepE_at_n tl tl.length (fun j => if j ≤ tl.length - 1 then noteOf tl j else "") none
    with herr | ⟨gg, hstep⟩
  · rw [show (1 : Nat) = Nat.succ 0 from rfl] at hok
    simp only [loopE] at hok
    rw [herr] at hok
    simp at hok
  · rw [show (1 : Nat) = Nat.succ 0 from rfl] at hok
    simp only [loopE] at hok
    rw [hstep] at hok
    dsimp only at hok
    have hnotes : notes = (List.range tl.length).map
        (fun j => if j ≤ tl.length - 1 then noteOf tl j else "") := by
      cases hok
      rfl
    rw [hnotes, range_map_getD _ _ _ hi]
    simp [show i ≤ tl.length - 1 from by omega]

theorem missing_reflect (a b : Row) :
    missing_on_air a b = true ↔
      ((¬ b.gw0 = onAirLabel ∧ a.gw0 = jaccSchedLabel) ∨
       (¬ b.gw1 = onAirLabel ∧ a.gw1 = jaccSchedLabel)) := by
  simp [missing_on_air, Bool.or_eq_true, Bool.and_eq_true, bne_iff_ne, beq_iff_eq]

theorem device_reflect (a b : Row) :
    device_not_joined a b = true ↔
      ((a.gw0 = onAirLabel ∨ a.gw1 = onAirLabel) ∧
       (b.gw0 = jreqLabel ∨ b.gw1 = jreqLabel)) := by
  simp [device_not_joined, Bool.or_eq_true, Bool.and_eq_true, beq_iff_eq]

theorem rowAt_mem (tl : List Row) (i : Nat) (hi : i < tl.length) : rowAt tl i ∈ tl := by
  unfold rowAt
  rw [List.getD_eq_getElem tl default hi]
  exact List.getElem_mem hi

theorem njFires_iff_spec (tl : List Row) (i : Nat) (hi : i < tl.length) :
    njFires tl i = true ↔ specNormalJoinWindow tl i := by
  unfold njFires specNormalJoinWindow
  by_cases h3 : i = 3
  · subst h3
    have h43 : ¬ (4 ≤ 3) := by omega
    simp [sig4at, Bool.and_eq_true, Bool.or_eq_true, beq_iff_eq, hi, h43]
    tauto
  · by_cases h4 : 3 < i
    · rw [if_neg h3, if_pos h4]
      have h3i : 3 ≤ i := by omega
      have h4i : 4 ≤ i := by omega
      simp [sig5at, Bool.and_eq_true, Bool.or_eq_true, beq_iff_eq, hi, h3i, h4i]
      tauto
    · have hn3 : ¬ (3 ≤ i) := by omega
      rw [if_neg h3, if_neg h4]
      simp [hn3]

theorem njFires_pair (tl : List Row) (i : Nat) (h : njFires tl i = true) :
    jaccOnAirPair (rowAt tl (i - 1)) (rowAt tl i) = true ∧ 3 ≤ i := by
  unfold njFires at h
  by_cases h3 : i = 3
  · subst h3
    rw [if_pos rfl] at h
    simp only [sig4at, Bool.and_eq_true] at h
    exact ⟨h.2, by omega⟩
  · by_cases h4 : 3 < i
    · rw [if_neg h3, if_pos h4] at h
      simp only [sig5at, Bool.and_eq_true] at h
      exact ⟨h.2, by omega⟩
    · rw [if_neg h3, if_neg h4] at h
      exact absurd h (by simp)

theorem pair_no_missing (tl : List Row) (hx : ∀ r ∈ tl, r.gw0 = "" ∨ r.gw1 = "")
    (i : Nat) (hi : i < tl.length) (h1 : 1 ≤ i)
    (hp : jaccOnAirPair (rowAt tl (i - 1)) (rowAt tl i) = true) :
    missing_on_air (rowAt tl (i - 1)) (rowAt tl i) = false := by
  have hm1 : rowAt tl (i - 1) ∈ tl := rowAt_mem tl (i - 1) (by omega)
  simp only [jaccOnAirPair, Bool.or_eq_true, Bool.and_eq_true, beq_iff_eq] at hp
  rcases hp with ⟨ha0, hb0⟩ | ⟨ha1, hb1⟩
  · have hgw1 : (rowAt tl (i - 1)).gw1 = "" := by
      rcases hx _ hm1 with h | h
      · rw [ha0] at h; exact absurd h (by decide)
      · exact h
    simp [missing_on_air, ha0, hb0, hgw1]
    intro _
    decide
  · have hgw0 : (rowAt tl (i - 1)).gw0 = "" := by
      rcases hx _ hm1 with h | h
      · exact h
      · rw [ha1] at h; exact absurd h (by decide)
    simp [missing_on_air, ha1, hb1, hgw0]
    intro _
    decide

theorem pair_no_device (tl : List Row) (hx : ∀ r ∈ tl, r.gw0 = "" ∨ r.gw1 = "")
    (i : Nat) (hi : i < tl.length)
    (hp : jaccOnAirPair (rowAt tl (i - 1)) (rowAt tl i) = true) :
    device_not_joined (rowAt tl (i - 1)) (rowAt tl i) = false := by
  have hmi : rowAt tl i ∈ tl := rowAt_mem tl i hi
  simp only [jaccOnAirPair, Bool.or_eq_true, Bool.and_eq_true, beq_iff_eq] at hp
  rcases hp with ⟨ha0, hb0⟩ | ⟨ha1, hb1⟩
  · have hgw1 : (rowAt tl i).gw1 = "" := by
      rcases hx _ hmi with h | h
      · rw [hb0] at h; exact absurd h (by decide)
      · exact h
    simp [device_not_joined, hb0, hgw1]
    intro _
    decide
  · have hgw0 : (rowAt tl i).gw0 = "" := by
      rcases hx _ hmi with h | h
      · exact h
      · rw [hb1] at h; exact absurd h (by decide)
    simp [device_not_joined, hb1, hgw0]
    intro _
    decide

theorem noteOf_eq_nj_iff (tl : List Row) (hx : ∀ r ∈ tl, r.gw0 = "" ∨ r.gw1 = "")
    (i : Nat) (hi : i < tl.length) : noteOf tl i = njNote ↔ njFires tl i = true := by
  cases i with
  | zero =>
    constructor
    · intro h
      have h0 : ("" : String) = njNote := h
      exact absurd h0 (by decide)
    · intro h; unfold njFires at h; simp at h
  | succ j =>
    have hstep : noteOf tl (j + 1) = stepNote tl (noteOf tl j) "" (j + 1) := rfl
    rw [hstep]
    unfold stepNote
    by_cases hM : missing_on_air (rowAt tl (j + 1 - 1)) (rowAt tl (j + 1)) = true
    · rw [if_pos hM]
      constructor
      · intro h; exact absurd h (by decide)
      · intro hF
        obtain ⟨hpair, _⟩ := njFires_pair tl (j + 1) hF
        have hno := pair_no_missing tl hx (j + 1) hi (by omega) hpair
        rw [hM] at hno
        exact absurd hno (by decide)
    · rw [if_neg hM]
      by_cases hD : (noteOf tl j == njNote &&
          device_not_joined (rowAt tl (j + 1 - 1)) (rowAt tl (j + 1))) = true
      · rw [if_pos hD]
        constructor
        · intro h; exact absurd h (by decide)
        · intro hF
          obtain ⟨hpair, _⟩ := njFires_pair tl (j + 1) hF
          have hno := pair_no_device tl hx (j + 1) hi hpair
          simp only [Bool.and_eq_true] at hD
          rw [hno] at hD
          exact absurd hD.2 (by decide)
      · rw [if_neg hD]
        by_cases hF : njFires tl (j + 1) = true
        · rw [if_pos hF]
          simp [hF]
        · rw [if_neg hF]
          constructor
          · intro h; exact absurd h (by decide)
          · intro h; exact absurd h hF

theorem noteOf_eq_lns_iff (tl : List Row) (i : Nat) (hi : i < tl.length) :
    noteOf tl i = lnsNote ↔ lnsAfterJacc tl i := by
  cases i with
  | zero =>
    constructor
    · intro h
      have h0 : ("" : String) = lnsNote := h
      exact absurd h0 (by decide)
    · intro h; exact absurd h.1 (by omega)
  | succ j =>
    have hstep : noteOf tl (j + 1) = stepNote tl (noteOf tl j) "" (j + 1) := rfl
    rw [hstep]
    unfold stepNote
    by_cases hM : missing_on_air (rowAt tl (j + 1 - 1)) (rowAt tl (j + 1)) = true
    · rw [if_pos hM]
      constructor
      · intro _
        exact ⟨by omega, (missing_reflect _ _).1 hM⟩
      · intro _; rfl
    · rw [if_neg hM]
      constructor
      · intro h
        split_ifs at h
        · exact absurd h (by decide)
        · exact absurd h (by decide)
        · exact absurd h (by decide)
      · intro hR
        obtain ⟨_, hX⟩ := hR
        exact absurd ((missing_reflect _ _).2 hX) hM

theorem noteOf_dev (tl : List Row) (i : Nat) (h : noteOf tl i = devNote) :
    1 ≤ i ∧ noteOf tl (i - 1) = njNote ∧
      device_not_joined (rowAt tl (i - 1)) (rowAt tl i) = true := by
  cases i with
  | zero =>
    have h0 : ("" : String) = devNote := h
    exact absurd h0 (by decide)
  | succ j =>
    have hstep : noteOf tl (j + 1) = stepNote tl (noteOf tl j) "" (j + 1) := rfl
    rw [hstep] at h
    unfold stepNote at h
    split_ifs at h with h1 h2 h3
    · exact absurd h (by decide)
    · simp only [Bool.and_eq_true, beq_iff_eq] at h2
      refine ⟨by omega, ?_, h2.2⟩
      show noteOf tl (j + 1 - 1) = njNote
      simpa using h2.1
    · exact absurd h (by decide)
    · exact absurd h (by decide)

/-- C1: for a finished Device Timeline (one populated gateway-front
column per row, as the merger produces) on which the detector ran to
completion, a row `i` carries the Normal Join note exactly when its
4-row lookback window (5 rows when available, the JREQ one row further
back) satisfies the JREQ / SendingForward / Scheduled-JACC / On-Air
signature. -/
theorem C1_normal_join_iff (tl : List Row) (notes : List String) (ghost : Option String)
    (hx : ∀ r ∈ tl, r.gw0 = "" ∨ r.gw1 = "")
    (hok : check_for_errors tl = Except.ok (notes, ghost)) (i : Nat) (hi : i < tl.length) :
    notes.getD i "" = njNote ↔ specNormalJoinWindow tl i := by
  rw [check_ok_notes tl notes ghost hok i hi, noteOf_eq_nj_iff tl hx i hi]
  exact njFires_iff_spec tl i hi

/-- C1, witness: on the concrete 4-row join timeline the equivalence is
obtained from `C1_normal_join_iff` with every hypothesis discharged. -/
theorem C1_normal_join_iff_witness :
    (exJoin4Notes.getD 3 "" = njNote ↔ specNormalJoinWindow exJoin4 3) :=
  C1_normal_join_iff exJoin4 exJoin4Notes (some njNote) (by decide) rfl 3 (by decide)

/-- C2, counterexample: on a timeline whose row 0 shows a scheduled
JACC with no On-Air after it, the claim's condition holds at row 0 yet
row 0 carries no note — the LNS Error note is written on row 1, where
the claim's condition does not hold.  The claimed iff is false on both
rows. -/
theorem C2_lns_counterexample :
    check_for_errors exJacc2 = Except.ok (exJacc2Notes, none) ∧
    specLnsOnJaccRow exJacc2 0 ∧ exJacc2Notes.getD 0 "" ≠ lnsNote ∧
    ¬ specLnsOnJaccRow exJacc2 1 ∧ exJacc2Notes.getD 1 "" = lnsNote :=
  ⟨rfl, by decide, by decide, by decide, rfl⟩

/-- C2, amended: a row carries the LNS Error note exactly when it is
not the first row, its predecessor shows Scheduled JACC on a
gateway-front column, and the row itself does not show On-Air on that
same column — the note is placed on the row after the Scheduled JACC,
and a Scheduled JACC on the last row is never flagged. -/
theorem C2_lns_amended (tl : List Row) (notes : List String) (ghost : Option String)
    (hok : check_for_errors tl = Except.ok (notes, ghost)) (i : Nat) (hi : i < tl.length) :
    notes.getD i "" = lnsNote ↔ lnsAfterJacc tl i := by
  rw [check_ok_notes tl notes ghost hok i hi]
  exact noteOf_eq_lns_iff tl i hi

/-- C2, witness: the amended equivalence at row 1 of the concrete
2-row timeline, every hypothesis discharged. -/
theorem C2_lns_amended_witness :
    (exJacc2Notes.getD 1 "" = lnsNote ↔ lnsAfterJacc exJacc2 1) :=
  C2_lns_amended exJacc2 exJacc2Notes none rfl 1 (by decide)

/-- C7: a row carries the Device Error note only if the immediately
preceding row carries the Normal Join note, that preceding row shows
On-Air on a gateway-front column, and the row itself shows JREQ on a
gateway-front column. -/
theorem C7_device_error_only_if (tl : List Row) (notes : List String) (ghost : Option String)
    (hok : check_for_errors tl = Except.ok (notes, ghost)) (i : Nat) (hi : i < tl.length)
    (hdev : notes.getD i "" = devNote) :
    1 ≤ i ∧ notes.getD (i - 1) "" = njNote ∧
    ((rowAt tl (i - 1)).gw0 = onAirLabel ∨ (rowAt tl (i - 1)).gw1 = onAirLabel) ∧
    ((rowAt tl i).gw0 = jreqLabel ∨ (rowAt tl i).gw1 = jreqLabel) := by
  rw [check_ok_notes tl notes ghost hok i hi] at hdev
  obtain ⟨h1, hprev, hdnj⟩ := noteOf_dev tl i hdev
  have hrefl := (device_reflect _ _).1 hdnj
  refine ⟨h1, ?_, hrefl.1, hrefl.2⟩
  rw [check_ok_notes tl notes ghost hok (i - 1) (by omega)]
  exact hprev

/-- C7, witness: the conclusion at row 4 of the concrete rejoin
timeline, every hypothesis discharged. -/
theorem C7_device_error_only_if_witness :
    1 ≤ 4 ∧ exDeviceNotes.getD (4 - 1) "" = njNote ∧
    ((rowAt exDevice (4 - 1)).gw0 = onAirLabel ∨ (rowAt exDevice (4 - 1)).gw1 = onAirLabel) ∧
    ((rowAt exDevice 4).gw0 = jreqLabel ∨ (rowAt exDevice 4).gw1 = jreqLabel) :=
  C7_device_error_only_if exDevice exDeviceNotes none rfl 4 (by decide) rfl

/-- C10: the annotate phase does not keep to the frame the claim
states.  On any timeline of exactly 3 rows the loop's `i == 3`
iteration slices a 3-row window and `tl.iloc[-4]` raises `IndexError`
(the run fails instead of terminating normally); and on the 4-row join
timeline the final iteration writes `loc[4]`, enlarging the frame with
a phantom row past the last index that carries the Normal Join note. -/
theorem C10_annotate_frame_violation :
    check_for_errors exThree = Except.error () ∧
    check_for_errors exJoin4 = Except.ok (exJoin4Notes, some njNote) :=
  ⟨rfl, rfl⟩

theorem insertRow_perm (r : TRow) (l : List TRow) : (insertRow r l).Perm (r :: l) := by
  induction l with
  | nil => exact List.Perm.refl _
  | cons x xs ih =>
    unfold insertRow
    by_cases h : x.ts ≤ r.ts
    · rw [if_pos h]
      exact List.Perm.trans (List.Perm.cons x ih) (List.Perm.swap r x xs)
    · rw [if_neg h]

theorem sortByTs_perm (l : List TRow) : (sortByTs l).Perm l := by
  induction l with
  | nil => exact List.Perm.refl _
  | cons x xs ih =>
    unfold sortByTs
    exact (insertRow_perm x (sortByTs xs)).trans (List.Perm.cons x ih)

theorem count_cleanup (r : TRow) (t : List TRow) :
    List.count r (cleanup_timeline t) = List.count r t :=
  (sortByTs_perm t).count_eq r

/-- C3: the round-1 multiplexer selection does not select only the rows
whose session address is in the device's resolved set: with resolved
set `{5}`, the row carrying session address `7` is still selected,
because the selection mask is initialised to `DevAddr > -1e15`, which
is already true for every row whose address parsed; the equality checks
or-ed into it change nothing.  The empty-set half does behave as
claimed: nothing is selected. -/
theorem C3_muxs_selection_overmatches :
    muxSelectRound1 [5] cexMuxLog = cexMuxLog ∧ muxSelectRound1 [] cexMuxLog = [] :=
  ⟨rfl, rfl⟩

/-- C4: identity contexts are *not* isolated between device analyses:
the lists live on the class, so after analysing device `AA-…-01`
(whose network-session rows contribute session address 1001), the
analysis of device `BB-…-02` starts from the polluted shared state and
its context contains 1001 — while running `BB-…-02` alone yields an
empty context. -/
theorem C4_shared_context_leak :
    (extract_from_nwks_ids "BB-BB-BB-BB-BB-BB-BB-02" cexNwksLog
      (extract_from_nwks_ids "AA-AA-AA-AA-AA-AA-AA-01" cexNwksLog initClassState)).devaddrs
      = [1001] ∧
    (extract_from_nwks_ids "BB-BB-BB-BB-BB-BB-BB-02" cexNwksLog initClassState).devaddrs
      = [] :=
  ⟨rfl, rfl⟩

/-- C5, counterexample: the metadata pass duplicates a row the timeline
already contains.  The one gateway row of `cexGwLog` carries both the
device's EUI and a resolved session address, so the direct pass selects
it (count 1) and the metadata pass appends a second copy (count 2). -/
theorem C5_duplicate_counterexample :
    extract_from_gateway "AA-AA-AA-AA-AA-AA-AA-01" "GW0" cexGwLog [] = [cexTRow] ∧
    List.count cexTRow (extract_from_gateway_meta [7] [] "GW0" cexGwLog [cexTRow]) = 2 :=
  ⟨rfl, by decide⟩

/-- C5, amended: the metadata pass is monotone — every row present in
the timeline before the pass is still present after it, with at least
the same multiplicity (the pass only appends and re-sorts) — but it may
add a second copy of a source row the timeline already contains, since
no deduplication is performed. -/
theorem C5_meta_pass_monotone (devaddrs : List Int) (pdus : List String) (gwcol : String)
    (glog : List GwRow) (mlog : List MuxRow) (t : List TRow) (r : TRow) :
    List.count r t ≤ List.count r (extract_from_gateway_meta devaddrs pdus gwcol glog t) ∧
    List.count r t ≤ List.count r (extract_from_muxs_meta devaddrs mlog t) := by
  constructor
  · unfold extract_from_gateway_meta
    rw [count_cleanup, List.count_append]
    exact Nat.le_add_right _ _
  · unfold extract_from_muxs_meta
    rw [count_cleanup, List.count_append]
    exact Nat.le_add_right _ _

/-- C8: parsing is not total.  A joins or network-session line with no
device-identifier pattern makes `.group()` raise; a gateway line with
the `'UP: '` marker but malformed JSON makes `json.loads` raise.  Only
the gateway fall-through (no marker at all) returns the UNKNOWN series
— which has five cells against six assigned columns. -/
theorem C8_parse_raises_on_unmatched_line :
    joins_parse_data_string cexJoinsLine = Except.error () ∧
    nwks_parse_data_string cexNwksLine = Except.error () ∧
    gateway_parse_data_string cexGatewayLine = Except.error () ∧
    gateway_parse_data_string plainGatewayLine =
      Except.ok [Cell.str "UNKNOWN", Cell.null, Cell.null, Cell.null, Cell.null] :=
  ⟨rfl, rfl, rfl, rfl⟩

/-- C9: on an empty batch the in-memory summary indeed has zero rows,
but `DeviceStats.__init__` then unconditionally dereferences
`devices[0]` for the output filename and raises `IndexError` — the
empty batch is not handled without error. -/
theorem C9_empty_batch_raises :
    summary_rows [] = [] ∧ device_stats [] = Except.error () :=
  ⟨rfl, rfl⟩
